import Mathlib

/-!
Verification of the event-classification and timeline-reconciliation core of
the chat client in `src/frontend/src/App.tsx`.

The TypeScript handler `onUpdateEvent` (App.tsx lines 30-147) inspects a
loosely typed update event, produces at most one `ProcessedEvent` (title and
data string) and may set the finalize latch `hasFinalizeEventOccurredRef`.
The archive effect (lines 164-179) copies the live timeline into
`historicalActivities` keyed by the id of the last agent message, and
`handleSubmit` (lines 181-224) resets the live state and dispatches the
request payload.

JavaScript values that flow through the handler are modelled by `JsVal`.
`JsVal.null` stands for both JS `undefined` and JS `null`: the two are
interchangeable everywhere this code can observe them (truthiness, `||`
defaulting, optional chaining, `Array.isArray`, join of array elements),
except for direct template interpolation, where the only nullish value that
can reach an interpolation site in this handler is `undefined`
(`results.length` on a non-array), so `jsToString JsVal.null` renders as
"undefined".  Numbers are modelled as `Int` (only integers appear in the
handler).  Strings are Lean strings; JS `.length`, `.substring` count UTF-16
code units while Lean counts code points, which agree on the concrete inputs
used here.  A thrown JS `TypeError` is modelled by `Except.error`.
-/

inductive JsVal where
  | null : JsVal
  | bool : Bool → JsVal
  | str : String → JsVal
  | num : Int → JsVal
  | arr : List JsVal → JsVal
  | obj : List (String × JsVal) → JsVal
deriving Repr

inductive JsError where
  | typeError : JsError
deriving Repr, DecidableEq

/-- JS truthiness of a value (`if (v)`).  `JsVal.null` covers
`undefined`/`null`, both falsy; empty string and zero are falsy; every
array and object is truthy. -/
def truthy : JsVal → Bool
  | .null => false
  | .bool b => b
  | .str s => s ≠ ""
  | .num n => n ≠ 0
  | .arr _ => true
  | .obj _ => true

/-- Whether a value is JS nullish (`undefined` or `null`). -/
def nullish : JsVal → Bool
  | .null => true
  | _ => false

/-- JS `Array.isArray`. -/
def isArray : JsVal → Bool
  | .arr _ => true
  | _ => false

/-- JS logical or `a || b`: the left operand when truthy, otherwise the
right operand. -/
def jsOr (a b : JsVal) : JsVal :=
  if truthy a then a else b

/-- JS property access `v.k` on a receiver already known to be non-nullish:
objects yield the stored field or `undefined`; strings and arrays expose
`length`; any other access yields `undefined`.  Access on a nullish
receiver is handled separately (it throws). -/
def getField : JsVal → String → JsVal
  | .obj fs, k =>
      match fs.find? (fun p => p.1 = k) with
      | some p => p.2
      | none => .null
  | .str s, k => if k = "length" then .num (Int.ofNat s.length) else .null
  | .arr xs, k => if k = "length" then .num (Int.ofNat xs.length) else .null
  | _, _ => .null

/-- JS optional chaining `v?.k`: `undefined` when the receiver is nullish,
plain access otherwise. -/
def optGet (v : JsVal) (k : String) : JsVal :=
  if nullish v then .null else getField v k

/-- JS plain property access `v.k` in a position where the receiver may be
nullish, in which case JS throws a `TypeError`. -/
def getPropE (v : JsVal) (k : String) : Except JsError JsVal :=
  if nullish v then .error .typeError else .ok (getField v k)

mutual

/-- JS `String(v)` / template interpolation of a single value.
`Array.prototype.toString` is `join(",")`, where nullish elements render
as the empty string; plain objects render as "[object Object]". -/
def jsToString : JsVal → String
  | .null => "undefined"
  | .bool b => if b then "true" else "false"
  | .str s => s
  | .num n => toString n
  | .arr xs => jsArrToString xs
  | .obj _ => "[object Object]"

def jsArrToString : List JsVal → String
  | [] => ""
  | [.null] => ""
  | [x] => jsToString x
  | .null :: xs => "," ++ jsArrToString xs
  | x :: xs => jsToString x ++ "," ++ jsArrToString xs

end

/-- JS `Array.prototype.join(sep)`: elements stringified, nullish elements
as the empty string. -/
def joinJsList (xs : List JsVal) (sep : String) : String :=
  String.intercalate sep (xs.map (fun e => if nullish e then "" else jsToString e))

/-- JS `v?.join(sep)`: `undefined` when `v` is nullish; joins when `v` is
an array; throws a `TypeError` otherwise (no `join` method). -/
def optJoin (v : JsVal) (sep : String) : Except JsError JsVal :=
  if nullish v then .ok .null
  else
    match v with
    | .arr xs => .ok (.str (joinJsList xs sep))
    | _ => .error .typeError

mutual

/-- JS strict equality `===` restricted to the values this handler
compares (numbers against the literal `1`, and `Set` membership on
primitive labels). -/
def jsEq : JsVal → JsVal → Bool
  | .null, .null => true
  | .bool a, .bool b => a = b
  | .str a, .str b => a = b
  | .num a, .num b => a = b
  | .arr a, .arr b => jsEqL a b
  | .obj a, .obj b => jsEqO a b
  | _, _ => false

def jsEqL : List JsVal → List JsVal → Bool
  | [], [] => true
  | x :: xs, y :: ys => jsEq x y && jsEqL xs ys
  | _, _ => false

def jsEqO : List (String × JsVal) → List (String × JsVal) → Bool
  | [], [] => true
  | (k1, v1) :: xs, (k2, v2) :: ys => k1 = k2 && jsEq v1 v2 && jsEqO xs ys
  | _, _ => false

end

def jsMem (x : JsVal) : List JsVal → Bool
  | [] => false
  | y :: ys => jsEq x y || jsMem x ys

/-- JS `[...new Set(xs)]`: first occurrence of each value, in insertion
order.  (JS `Set` compares objects by reference; the labels deduplicated
in this handler are strings, for which structural equality coincides.) -/
def dedupJs (xs : List JsVal) : List JsVal :=
  xs.foldl (fun acc x => if jsMem x acc then acc else acc ++ [x]) []

/-- JS `v?.[0]`-style optional index access used on `search_query`. -/
def optIndex (v : JsVal) (i : Nat) : JsVal :=
  match v with
  | .null => .null
  | .arr xs => xs.getD i .null
  | .str s =>
      match s.toList[i]? with
      | some c => .str (String.mk [c])
      | none => .null
  | .obj fs => getField (.obj fs) (toString i)
  | _ => .null

/-- The `x || ""` coercion applied to a join result: the joined string, or
the empty string when the result was `undefined` or `""`. -/
def strOrEmpty : JsVal → String
  | .str s => s
  | _ => ""

/-- A timeline entry: `ProcessedEvent` from `@/components/ActivityTimeline`
as constructed in App.tsx, a title plus a data string. -/
structure ProcessedEvent where
  title : String
  data : String
deriving Repr, DecidableEq

/-- The classification part of `onUpdateEvent` (App.tsx lines 30-140): from
one raw update event to at most one `ProcessedEvent`, plus the flag telling
whether this event sets `hasFinalizeEventOccurredRef` (the finalize
branches, lines 133 and 139).  The branches are the source if/else chain in
order; field accesses, `||` defaults, optional chaining and the method
calls (`substring`, `join`, `map`) are modelled by the JS helpers above; a
JS `TypeError` becomes `Except.error`.  The general reflection branch
(lines 103-113) copies the source as written: the statement
`const queriesText = Array.isArray(followUpQueries)` ends at the line break
by automatic semicolon insertion, so `queriesText` is the boolean result of
`Array.isArray`, interpolated as "true"/"false". -/
def classify (event : JsVal) : Except JsError (Option ProcessedEvent × Bool) :=
  if nullish event then .error .typeError
  else if truthy (getField event "input_guardrail") then
    let ig := getField event "input_guardrail"
    let isSafe := optGet ig "is_safe_input"
    let violations := jsOr (optGet ig "guardrail_violations") (.arr [])
    let originalInput := jsOr (optGet ig "original_input") (.str "")
    if truthy isSafe then
      match originalInput with
      | .str s =>
          .ok (some ⟨"🛡️ Input Security Check",
            "Input validated successfully. Safe to proceed with: \"" ++ s.take 50
              ++ (if 50 < s.length then "..." else "") ++ "\""⟩, false)
      | _ => .error .typeError
    else
      match violations with
      | .arr vs =>
          .ok (some ⟨"🚨 Security Violation Detected",
            "Input blocked due to: " ++ joinJsList vs ", "
              ++ ". Original input length: " ++ jsToString (getField originalInput "length")
              ++ " characters."⟩, false)
      | _ => .error .typeError
  else if truthy (getField event "guardrail_block") then
    .ok (some ⟨"🛡️ Request Blocked",
      "Request has been blocked by security guardrails for policy violations."⟩, false)
  else if truthy (getField event "generate_query") then
    match optJoin (optGet (getField event "generate_query") "search_query") ", " with
    | .ok j => .ok (some ⟨"Generating Search Queries", strOrEmpty j⟩, false)
    | .error e => .error e
  else if truthy (getField event "generate_knowledge_query") then
    match optJoin (optGet (getField event "generate_knowledge_query") "search_query") ", " with
    | .ok j => .ok (some ⟨"Generating Knowledge Search Queries", strOrEmpty j⟩, false)
    | .error e => .error e
  else if truthy (getField event "web_research") then
    let sources := jsOr (optGet (getField event "web_research") "sources_gathered") (.arr [])
    match sources with
    | .arr xs =>
        match xs.mapM (fun s => getPropE s "label") with
        | .ok labels =>
            let uniqueLabels := dedupJs (labels.filter (fun l => truthy l))
            let exampleLabels := joinJsList (uniqueLabels.take 3) ", "
            .ok (some ⟨"Web Research",
              "Gathered " ++ toString xs.length ++ " sources. Related to: "
                ++ (if exampleLabels = "" then "N/A" else exampleLabels) ++ "."⟩, false)
        | .error e => .error e
    | _ => .error .typeError
  else if truthy (getField event "classify_query") then
    let cq := getField event "classify_query"
    let needsWebSearch := truthy (jsOr (optGet cq "needs_web_search") (.bool false))
    let needsKnowledgeSearch := truthy (jsOr (optGet cq "needs_knowledge_search") (.bool false))
    let searchTypeText :=
      if needsWebSearch && needsKnowledgeSearch then "🌐📚 Web + Knowledge Search"
      else if needsWebSearch then "🌐 Web Search"
      else if needsKnowledgeSearch then "📚 Knowledge Search"
      else "💬 Direct Answer"
    .ok (some ⟨"🔍 Query Classification", "Target Node: " ++ searchTypeText⟩, false)
  else if truthy (getField event "knowledge_search") then
    let ks := getField event "knowledge_search"
    let results := jsOr (optGet ks "knowledge_search_result") (.arr [])
    let searchQuery := jsOr (optIndex (optGet ks "search_query") 0) (.str "")
    let numResults := getField results "length"
    .ok (some ⟨"Knowledge Search",
      "Searching: \"" ++ jsToString searchQuery ++ "\". Found " ++ jsToString numResults
        ++ " relevant result" ++ (if jsEq numResults (.num 1) then "" else "s")
        ++ " in internal knowledge base."⟩, false)
  else if truthy (getField event "reflection") then
    let r := getField event "reflection"
    let isSufficient := truthy (jsOr (getField r "is_sufficient") (.bool false))
    let knowledgeGap := jsOr (getField r "knowledge_gap") (.str "No gap identified")
    let followUpQueries := jsOr (getField r "follow_up_queries") (.arr [])
    let queriesText := isArray followUpQueries
    .ok (some ⟨"Reflection",
      "Analysing Web Research Results: \n"
        ++ (if isSufficient then "✅ Sufficient" else "❌ Insufficient")
        ++ ". \nReason: " ++ jsToString knowledgeGap
        ++ ". \nFollow-up Queries: " ++ (if queriesText then "true" else "false")⟩, false)
  else if truthy (getField event "knowledge_reflection") then
    let r := getField event "knowledge_reflection"
    let isSufficient := truthy (jsOr (getField r "is_sufficient") (.bool false))
    let knowledgeGap := jsOr (getField r "knowledge_gap") (.str "No gap identified")
    let followUpQueries := jsOr (getField r "follow_up_queries") (.arr [])
    let queriesText :=
      match followUpQueries with
      | .arr xs => joinJsList xs ", "
      | v => let t := jsToString v; if t = "" then "No follow-up queries" else t
    .ok (some ⟨"Knowledge Reflection",
      "Analysing Knowledge Search Results: \n"
        ++ (if isSufficient then "✅ Sufficient" else "❌ Insufficient")
        ++ ". \nReason: " ++ jsToString knowledgeGap
        ++ ". \nFollow-up Queries: " ++ queriesText⟩, false)
  else if truthy (getField event "finalize_answer") then
    .ok (some ⟨"Finalizing Answer", "Composing and presenting the final answer."⟩, true)
  else if truthy (getField event "finalize_knowledge_answer") then
    .ok (some ⟨"Finalizing Knowledge Answer",
      "Composing and presenting the final knowledge-based answer."⟩, true)
  else
    .ok (none, false)

/-- A chat message as read by this core: `type` is the role tag ("human" or
"ai"), `id` is the transport-assigned id (`none` when undefined). -/
structure Message where
  type : String
  content : String
  id : Option String
deriving Repr, DecidableEq

/-- Truthiness of `message.id` as tested at App.tsx line 171: defined and
non-empty. -/
def idTruthy : Option String → Bool
  | some s => s ≠ ""
  | none => false

/-- The reactive state owned by `App`: the live timeline
(`processedEventsTimeline` useState), the archive (`historicalActivities`
useState, a JS object keyed by message id, modelled as an association
list), and the finalize latch (`hasFinalizeEventOccurredRef` useRef). -/
structure AppState where
  processedEventsTimeline : List ProcessedEvent
  historicalActivities : List (String × List ProcessedEvent)
  hasFinalizeEventOccurred : Bool
deriving Repr, DecidableEq

/-- The JS object spread `{...prev, [k]: v}` seen through key lookup:
replace the binding of `k` when present, append it otherwise.  (JS object
keys are unique, so this association-list update has exactly the lookup
behaviour of the spread.) -/
def setKey : List (String × List ProcessedEvent) → String → List ProcessedEvent →
    List (String × List ProcessedEvent)
  | [], k, v => [(k, v)]
  | (k1, v1) :: rest, k, v =>
      if k1 = k then (k, v) :: rest else (k1, v1) :: setKey rest k v

/-- Lookup in the archive object. -/
def lookupArchive (al : List (String × List ProcessedEvent)) (k : String) :
    Option (List ProcessedEvent) :=
  (al.find? (fun p => p.1 = k)).map (fun p => p.2)

/-- The full `onUpdateEvent` handler (App.tsx lines 30-147): classify the
event, append the produced entry (if any) to the live timeline, and set the
finalize latch when the event is a finalize event (the ref is only ever set
to `true` here, never cleared).  A thrown `TypeError` propagates and the
state is left unmodified by the caller. -/
def onUpdateEvent (event : JsVal) (s : AppState) : Except JsError AppState :=
  match classify event with
  | .error e => .error e
  | .ok (entryOpt, isFinalize) =>
      .ok { s with
        processedEventsTimeline :=
          match entryOpt with
          | some pe => s.processedEventsTimeline ++ [pe]
          | none => s.processedEventsTimeline,
        hasFinalizeEventOccurred := s.hasFinalizeEventOccurred || isFinalize }

/-- The archive effect (App.tsx lines 164-179), run whenever
`thread.messages`, `thread.isLoading` or the live timeline changes.  When
the latch is set, the stream is idle and the message list is non-empty, it
inspects the last message; if that message is agent-authored ("ai") with a
truthy id, the live timeline is copied into `historicalActivities` under
that id.  The latch is then cleared unconditionally — the clearing
statement (line 177) sits outside the inner `if` (lines 171-176), so it
runs whether or not an archive entry was written. -/
def archiveEffect (isLoading : Bool) (messages : List Message) (s : AppState) : AppState :=
  if s.hasFinalizeEventOccurred && !isLoading && decide (0 < messages.length) then
    let s1 :=
      match messages.getLast? with
      | some lastMessage =>
          match lastMessage.id with
          | some i =>
              if lastMessage.type = "ai" && i ≠ "" then
                { s with historicalActivities :=
                    setKey s.historicalActivities i s.processedEventsTimeline }
              else s
          | none => s
      | none => s
    { s1 with hasFinalizeEventOccurred := false }
  else s

/-- JS `String.prototype.trim`: leading and trailing whitespace removed. -/
def jsTrim (s : String) : String :=
  String.mk (((s.toList.dropWhile Char.isWhitespace).reverse.dropWhile
    Char.isWhitespace).reverse)

/-- The request payload passed to `thread.submit` (App.tsx lines 216-221). -/
structure SubmitPayload where
  messages : List Message
  initial_search_query_count : Int
  max_research_loops : Int
  reasoning_model : String
deriving Repr, DecidableEq

/-- `handleSubmit` (App.tsx lines 181-224).  A blank input (whitespace-only
after `trim`) returns early without touching any state and dispatches
nothing.  Otherwise the live timeline is cleared, the latch is reset, the
effort switch (initialised to zero, no default case) picks the search
parameters, and the payload is dispatched.  `now` stands for `Date.now()`,
the id given to the new human message; `threadMessages` is the current
`thread.messages` list owned by the transport. -/
def handleSubmit (submittedInputValue effort model : String) (now : Nat)
    (threadMessages : List Message) (s : AppState) : AppState × Option SubmitPayload :=
  if jsTrim submittedInputValue = "" then (s, none)
  else
    let s1 := { s with processedEventsTimeline := [], hasFinalizeEventOccurred := false }
    let counts : Int × Int :=
      if effort = "low" then (1, 1)
      else if effort = "medium" then (3, 3)
      else if effort = "high" then (5, 10)
      else (0, 0)
    let newMessages :=
      threadMessages ++ [{ type := "human", content := submittedInputValue,
                           id := some (toString now) }]
    (s1, some { messages := newMessages,
                initial_search_query_count := counts.1,
                max_research_loops := counts.2,
                reasoning_model := model })

/-- Sample live timeline used as concrete witness state. -/
def tlSample : List ProcessedEvent :=
  [⟨"Web Research", "Gathered 3 sources. Related to: A, B."⟩]

/-- A terminal agent message with a truthy id. -/
def aiMsg : Message := ⟨"ai", "answer", some "m1"⟩

/-- A human message (not agent-authored). -/
def humanMsg : Message := ⟨"human", "question", some "h1"⟩

/-- A state with the finalize latch set and an empty archive. -/
def sLatched : AppState := ⟨tlSample, [], true⟩

/-- An event carrying only a truthy general finalize key. -/
def evFin : JsVal := .obj [("finalize_answer", .bool true)]

/-- An event carrying only a truthy knowledge finalize key. -/
def evKFin : JsVal := .obj [("finalize_knowledge_answer", .bool true)]

/-- An event with no known stage key. -/
def evUnknown : JsVal := .obj [("some_other_stage", .num 3)]

/-- The state reached from `sLatched` by archiving under "m1" and then
processing one guardrail-block event. -/
def sAfterBlock : AppState :=
  { processedEventsTimeline := tlSample ++ [⟨"🛡️ Request Blocked",
      "Request has been blocked by security guardrails for policy violations."⟩],
    historicalActivities := [("m1", tlSample)],
    hasFinalizeEventOccurred := false }

set_option maxRecDepth 10000

theorem lookupArchive_setKey (al : List (String × List ProcessedEvent))
    (k : String) (v : List ProcessedEvent) :
    lookupArchive (setKey al k v) k = some v := by
  induction al with
  | nil => simp [setKey, lookupArchive]
  | cons a rest ih =>
      obtain ⟨k1, v1⟩ := a
      by_cases h : k1 = k
      · simp [setKey, lookupArchive, h]
      · simpa [setKey, lookupArchive, h] using ih

theorem onUpdateEvent_archive_frame (e : JsVal) (s s' : AppState)
    (h : onUpdateEvent e s = .ok s') :
    s'.historicalActivities = s.historicalActivities := by
  unfold onUpdateEvent at h
  cases hc : classify e with
  | error err => rw [hc] at h; exact absurd h (by simp)
  | ok p =>
      obtain ⟨entryOpt, isFin⟩ := p
      rw [hc] at h
      injection h with h'
      rw [← h']

/-- C1: a general reflection event does not render its follow-up queries
joined with ", ": because the statement building `queriesText` in the
source is cut short (App.tsx line 109), the summary renders the boolean
result of `Array.isArray(followUpQueries)` instead, here the text "true"
rather than "q1, q2".  The sufficiency flag and knowledge-gap parts do
follow the claim. -/
theorem c1_reflection_renders_isArray_bool :
    classify (.obj [("reflection", .obj [("is_sufficient", .bool true),
        ("knowledge_gap", .str "Missing recent data"),
        ("follow_up_queries", .arr [.str "q1", .str "q2"])])]) =
      .ok (some ⟨"Reflection",
        "Analysing Web Research Results: \n✅ Sufficient. \nReason: Missing recent data. \nFollow-up Queries: true"⟩,
        false) ∧
    ("Analysing Web Research Results: \n✅ Sufficient. \nReason: Missing recent data. \nFollow-up Queries: true" : String) ≠
      "Analysing Web Research Results: \n✅ Sufficient. \nReason: Missing recent data. \nFollow-up Queries: q1, q2" :=
  ⟨rfl, by decide⟩

/-- C2 counterexample: with the latch set, the stream idle and a single
human (not agent-authored) last message, the handler writes nothing into
the archive, yet the latch does not remain true — it is cleared. -/
theorem c2_counterexample :
    sLatched.hasFinalizeEventOccurred = true ∧
    (archiveEffect false [humanMsg] sLatched).historicalActivities = [] ∧
    (archiveEffect false [humanMsg] sLatched).hasFinalizeEventOccurred = false :=
  ⟨rfl, rfl, rfl⟩

/-- C2 amended: the latch is cleared whenever the idle/message-change
handler runs with the latch set, the stream idle and a non-empty message
list — whether or not an archive entry is written; clearing is tied to
that outer condition, not to archive success. -/
theorem c2_latch_cleared_on_idle (messages : List Message) (s : AppState)
    (hLatch : s.hasFinalizeEventOccurred = true) (hNe : messages ≠ []) :
    (archiveEffect false messages s).hasFinalizeEventOccurred = false := by
  have hLen : 0 < messages.length := List.length_pos.mpr hNe
  unfold archiveEffect
  simp [hLatch, hLen]

/-- Concrete run of `c2_latch_cleared_on_idle`. -/
theorem c2_latch_cleared_on_idle_witness :
    sLatched.hasFinalizeEventOccurred = true ∧ ([humanMsg] : List Message) ≠ [] ∧
    (archiveEffect false [humanMsg] sLatched).hasFinalizeEventOccurred = false :=
  ⟨rfl, by decide, c2_latch_cleared_on_idle [humanMsg] sLatched rfl (by decide)⟩

/-- C3 counterexample: an event carrying a truthy general finalize key
together with a truthy higher-priority key (`classify_query`) is
classified by the higher-priority branch, and the finalize flag is NOT
set — so "regardless of any other fields present on the event" fails. -/
theorem c3_counterexample :
    classify (.obj [("classify_query", .obj []), ("finalize_answer", .bool true)]) =
      .ok (some ⟨"🔍 Query Classification", "Target Node: 💬 Direct Answer"⟩, false) :=
  rfl

/-- C3 amended: for every non-nullish event in which every
higher-priority stage key is falsy, a truthy general finalize key yields
the finalize entry with the flag set; and with the general finalize key
also falsy, a truthy knowledge finalize key yields the knowledge finalize
entry with the flag set.  All other fields of the event are irrelevant. -/
theorem c3_finalize_sets_flag (event : JsVal)
    (hNN : nullish event = false)
    (h1 : truthy (getField event "input_guardrail") = false)
    (h2 : truthy (getField event "guardrail_block") = false)
    (h3 : truthy (getField event "generate_query") = false)
    (h4 : truthy (getField event "generate_knowledge_query") = false)
    (h5 : truthy (getField event "web_research") = false)
    (h6 : truthy (getField event "classify_query") = false)
    (h7 : truthy (getField event "knowledge_search") = false)
    (h8 : truthy (getField event "reflection") = false)
    (h9 : truthy (getField event "knowledge_reflection") = false) :
    (truthy (getField event "finalize_answer") = true →
      classify event =
        .ok (some ⟨"Finalizing Answer", "Composing and presenting the final answer."⟩, true)) ∧
    (truthy (getField event "finalize_answer") = false →
      truthy (getField event "finalize_knowledge_answer") = true →
      classify event =
        .ok (some ⟨"Finalizing Knowledge Answer",
          "Composing and presenting the final knowledge-based answer."⟩, true)) := by
  constructor
  · intro hF
    unfold classify
    simp [hNN, h1, h2, h3, h4, h5, h6, h7, h8, h9, hF]
  · intro hF hK
    unfold classify
    simp [hNN, h1, h2, h3, h4, h5, h6, h7, h8, h9, hF, hK]

/-- Concrete run of `c3_finalize_sets_flag` on the two pure finalize
events. -/
theorem c3_finalize_sets_flag_witness :
    (nullish evFin = false ∧ truthy (getField evFin "finalize_answer") = true ∧
      classify evFin =
        .ok (some ⟨"Finalizing Answer", "Composing and presenting the final answer."⟩, true)) ∧
    (nullish evKFin = false ∧ truthy (getField evKFin "finalize_knowledge_answer") = true ∧
      classify evKFin =
        .ok (some ⟨"Finalizing Knowledge Answer",
          "Composing and presenting the final knowledge-based answer."⟩, true)) :=
  ⟨⟨rfl, rfl,
    (c3_finalize_sets_flag evFin rfl rfl rfl rfl rfl rfl rfl rfl rfl rfl).1 rfl⟩,
   ⟨rfl, rfl,
    (c3_finalize_sets_flag evKFin rfl rfl rfl rfl rfl rfl rfl rfl rfl rfl).2 rfl rfl⟩⟩

/-- C4: after every non-blank submission (a call of `handleSubmit` that
starts a new user turn), the live timeline is the empty list and the
finalize latch is false, regardless of the values they held before. -/
theorem c4_submit_resets (inp effort model : String) (now : Nat)
    (msgs : List Message) (s : AppState) (h : jsTrim inp ≠ "") :
    (handleSubmit inp effort model now msgs s).1.processedEventsTimeline = [] ∧
    (handleSubmit inp effort model now msgs s).1.hasFinalizeEventOccurred = false := by
  unfold handleSubmit
  simp [h]

/-- Concrete run of `c4_submit_resets` on a state holding prior values. -/
theorem c4_submit_resets_witness :
    jsTrim "what is new" ≠ "" ∧
    (handleSubmit "what is new" "high" "gemini" 17 [aiMsg] sLatched).1.processedEventsTimeline = [] ∧
    (handleSubmit "what is new" "high" "gemini" 17 [aiMsg] sLatched).1.hasFinalizeEventOccurred = false := by
  refine ⟨by decide, ?_, ?_⟩
  · exact (c4_submit_resets "what is new" "high" "gemini" 17 [aiMsg] sLatched (by decide)).1
  · exact (c4_submit_resets "what is new" "high" "gemini" 17 [aiMsg] sLatched (by decide)).2

/-- C5: with the latch set, the stream idle and an agent-authored last
message with a truthy id, the first run of the archive handler writes the
live timeline into the archive under that id and clears the latch, and a
second run with the identical terminal state is a no-op. -/
theorem c5_archive_idempotent (messages : List Message) (s : AppState)
    (m : Message) (i : String)
    (hLatch : s.hasFinalizeEventOccurred = true)
    (hLast : messages.getLast? = some m)
    (hType : m.type = "ai") (hId : m.id = some i) (hNe : i ≠ "") :
    lookupArchive (archiveEffect false messages s).historicalActivities i =
      some s.processedEventsTimeline ∧
    (archiveEffect false messages s).hasFinalizeEventOccurred = false ∧
    archiveEffect false messages (archiveEffect false messages s) =
      archiveEffect false messages s := by
  have hNil : messages ≠ [] := by
    intro hcon
    rw [hcon] at hLast
    simp [List.getLast?] at hLast
  have hLen : 0 < messages.length := List.length_pos.mpr hNil
  have hfirst : archiveEffect false messages s =
      { s with
        historicalActivities := setKey s.historicalActivities i s.processedEventsTimeline,
        hasFinalizeEventOccurred := false } := by
    unfold archiveEffect
    simp [hLatch, hLen, hLast, hId, hType, hNe]
  refine ⟨?_, ?_, ?_⟩
  · rw [hfirst]
    exact lookupArchive_setKey s.historicalActivities i s.processedEventsTimeline
  · rw [hfirst]
  · rw [hfirst]
    unfold archiveEffect
    simp

/-- Concrete run of `c5_archive_idempotent`. -/
theorem c5_archive_idempotent_witness :
    sLatched.hasFinalizeEventOccurred = true ∧
    ([humanMsg, aiMsg] : List Message).getLast? = some aiMsg ∧
    aiMsg.type = "ai" ∧ aiMsg.id = some "m1" ∧ ("m1" : String) ≠ "" ∧
    (lookupArchive (archiveEffect false [humanMsg, aiMsg] sLatched).historicalActivities "m1" =
        some sLatched.processedEventsTimeline ∧
      (archiveEffect false [humanMsg, aiMsg] sLatched).hasFinalizeEventOccurred = false ∧
      archiveEffect false [humanMsg, aiMsg] (archiveEffect false [humanMsg, aiMsg] sLatched) =
        archiveEffect false [humanMsg, aiMsg] sLatched) :=
  ⟨rfl, rfl, rfl, rfl, by decide,
    c5_archive_idempotent [humanMsg, aiMsg] sLatched aiMsg "m1" rfl rfl rfl rfl (by decide)⟩

/-- C6 counterexample: classification is not total — an event whose
`generate_query` payload holds a numeric `search_query` makes the source
call `.join` on a number and throw a `TypeError`, and an event whose
`sources_gathered` array holds a null element makes `sources.map` access
`.label` on a nullish receiver and throw a `TypeError`, so "classification
never raises on malformed or missing nested fields" fails. -/
theorem c6_counterexample :
    classify (.obj [("generate_query", .obj [("search_query", .num 5)])]) =
      .error .typeError ∧
    classify (.obj [("web_research", .obj [("sources_gathered", .arr [.null])])]) =
      .error .typeError :=
  ⟨rfl, rfl⟩

/-- C6 amended: for every non-nullish event in which no known stage key is
truthy, classification returns no entry and a false finalize flag without
raising, and the handler leaves the state unchanged; classification is not
total otherwise — a malformed nested payload under a truthy stage key
(such as a numeric `search_query`, or a null element of
`sources_gathered`) makes it raise a `TypeError`. -/
theorem c6_no_key_no_entry (event : JsVal) (s : AppState)
    (hNN : nullish event = false)
    (h1 : truthy (getField event "input_guardrail") = false)
    (h2 : truthy (getField event "guardrail_block") = false)
    (h3 : truthy (getField event "generate_query") = false)
    (h4 : truthy (getField event "generate_knowledge_query") = false)
    (h5 : truthy (getField event "web_research") = false)
    (h6 : truthy (getField event "classify_query") = false)
    (h7 : truthy (getField event "knowledge_search") = false)
    (h8 : truthy (getField event "reflection") = false)
    (h9 : truthy (getField event "knowledge_reflection") = false)
    (h10 : truthy (getField event "finalize_answer") = false)
    (h11 : truthy (getField event "finalize_knowledge_answer") = false) :
    classify event = .ok (none, false) ∧ onUpdateEvent event s = .ok s := by
  have hc : classify event = .ok (none, false) := by
    unfold classify
    simp [hNN, h1, h2, h3, h4, h5, h6, h7, h8, h9, h10, h11]
  refine ⟨hc, ?_⟩
  unfold onUpdateEvent
  rw [hc]
  simp

/-- Concrete run of `c6_no_key_no_entry`. -/
theorem c6_no_key_no_entry_witness :
    nullish evUnknown = false ∧
    truthy (getField evUnknown "input_guardrail") = false ∧
    truthy (getField evUnknown "reflection") = false ∧
    truthy (getField evUnknown "finalize_answer") = false ∧
    (classify evUnknown = .ok (none, false) ∧ onUpdateEvent evUnknown sLatched = .ok sLatched) :=
  ⟨rfl, rfl, rfl, rfl,
    c6_no_key_no_entry evUnknown sLatched rfl rfl rfl rfl rfl rfl rfl rfl rfl rfl rfl rfl⟩

/-- C7: a successful archive run writes the snapshot and clears the latch
but leaves the live timeline itself unchanged; the live list becomes empty
only at the next non-blank submission. -/
theorem c7_archive_keeps_live_timeline (messages : List Message) (s : AppState)
    (m : Message) (i : String) (inp effort model : String) (now : Nat)
    (msgs2 : List Message)
    (hLatch : s.hasFinalizeEventOccurred = true)
    (hLast : messages.getLast? = some m)
    (hType : m.type = "ai") (hId : m.id = some i) (hNe : i ≠ "")
    (hInp : jsTrim inp ≠ "") :
    (archiveEffect false messages s).processedEventsTimeline = s.processedEventsTimeline ∧
    lookupArchive (archiveEffect false messages s).historicalActivities i =
      some s.processedEventsTimeline ∧
    (archiveEffect false messages s).hasFinalizeEventOccurred = false ∧
    (handleSubmit inp effort model now msgs2
        (archiveEffect false messages s)).1.processedEventsTimeline = [] := by
  have hNil : messages ≠ [] := by
    intro hcon
    rw [hcon] at hLast
    simp [List.getLast?] at hLast
  have hLen : 0 < messages.length := List.length_pos.mpr hNil
  have hfirst : archiveEffect false messages s =
      { s with
        historicalActivities := setKey s.historicalActivities i s.processedEventsTimeline,
        hasFinalizeEventOccurred := false } := by
    unfold archiveEffect
    simp [hLatch, hLen, hLast, hId, hType, hNe]
  refine ⟨?_, ?_, ?_, ?_⟩
  · rw [hfirst]
  · rw [hfirst]
    exact lookupArchive_setKey s.historicalActivities i s.processedEventsTimeline
  · rw [hfirst]
  · unfold handleSubmit
    simp [hInp]

/-- Concrete run of `c7_archive_keeps_live_timeline`. -/
theorem c7_archive_keeps_live_timeline_witness :
    sLatched.hasFinalizeEventOccurred = true ∧
    ([humanMsg, aiMsg] : List Message).getLast? = some aiMsg ∧
    aiMsg.type = "ai" ∧ aiMsg.id = some "m1" ∧ ("m1" : String) ≠ "" ∧
    jsTrim "next question" ≠ "" ∧
    ((archiveEffect false [humanMsg, aiMsg] sLatched).processedEventsTimeline =
        sLatched.processedEventsTimeline ∧
      lookupArchive (archiveEffect false [humanMsg, aiMsg] sLatched).historicalActivities "m1" =
        some sLatched.processedEventsTimeline ∧
      (archiveEffect false [humanMsg, aiMsg] sLatched).hasFinalizeEventOccurred = false ∧
      (handleSubmit "next question" "low" "gemini" 99 []
          (archiveEffect false [humanMsg, aiMsg] sLatched)).1.processedEventsTimeline = []) :=
  ⟨rfl, rfl, rfl, rfl, by decide, by decide,
    c7_archive_keeps_live_timeline [humanMsg, aiMsg] sLatched aiMsg "m1"
      "next question" "low" "gemini" 99 [] rfl rfl rfl rfl (by decide) (by decide)⟩

/-- C8: the archived snapshot is a value copy — after a successful archive
under id `i`, any further event processed through the handler (the only
operation that appends to the live timeline) leaves the archive, and in
particular the entry stored under `i`, unchanged. -/
theorem c8_archive_value_copy (messages : List Message) (s : AppState)
    (m : Message) (i : String) (e : JsVal) (s2 : AppState)
    (hLatch : s.hasFinalizeEventOccurred = true)
    (hLast : messages.getLast? = some m)
    (hType : m.type = "ai") (hId : m.id = some i) (hNe : i ≠ "")
    (hE : onUpdateEvent e (archiveEffect false messages s) = .ok s2) :
    lookupArchive s2.historicalActivities i = some s.processedEventsTimeline ∧
    s2.historicalActivities = (archiveEffect false messages s).historicalActivities := by
  have hNil : messages ≠ [] := by
    intro hcon
    rw [hcon] at hLast
    simp [List.getLast?] at hLast
  have hLen : 0 < messages.length := List.length_pos.mpr hNil
  have hfirst : archiveEffect false messages s =
      { s with
        historicalActivities := setKey s.historicalActivities i s.processedEventsTimeline,
        hasFinalizeEventOccurred := false } := by
    unfold archiveEffect
    simp [hLatch, hLen, hLast, hId, hType, hNe]
  have hframe := onUpdateEvent_archive_frame e _ s2 hE
  refine ⟨?_, hframe⟩
  rw [hframe, hfirst]
  exact lookupArchive_setKey s.historicalActivities i s.processedEventsTimeline

/-- Concrete run of `c8_archive_value_copy`: after archiving under "m1", a
guardrail-block event appends to the live timeline while the archived copy
is untouched. -/
theorem c8_archive_value_copy_witness :
    sLatched.hasFinalizeEventOccurred = true ∧
    ([humanMsg, aiMsg] : List Message).getLast? = some aiMsg ∧
    aiMsg.type = "ai" ∧ aiMsg.id = some "m1" ∧ ("m1" : String) ≠ "" ∧
    onUpdateEvent (.obj [("guardrail_block", .bool true)])
        (archiveEffect false [humanMsg, aiMsg] sLatched) = .ok sAfterBlock ∧
    (lookupArchive sAfterBlock.historicalActivities "m1" =
        some sLatched.processedEventsTimeline ∧
      sAfterBlock.historicalActivities =
        (archiveEffect false [humanMsg, aiMsg] sLatched).historicalActivities) :=
  ⟨rfl, rfl, rfl, rfl, by decide, rfl,
    c8_archive_value_copy [humanMsg, aiMsg] sLatched aiMsg "m1"
      (.obj [("guardrail_block", .bool true)]) sAfterBlock rfl rfl rfl rfl (by decide) rfl⟩

/-- C9: for a non-blank submission, the three documented effort levels map
to exactly the documented search parameters: "low" to one initial query and
one research loop, "medium" to three and three, "high" to five and ten. -/
theorem c9_effort_mapping (inp model : String) (now : Nat)
    (msgs : List Message) (s : AppState) (h : jsTrim inp ≠ "") :
    ((handleSubmit inp "low" model now msgs s).2.map
        (fun p => (p.initial_search_query_count, p.max_research_loops))) = some (1, 1) ∧
    ((handleSubmit inp "medium" model now msgs s).2.map
        (fun p => (p.initial_search_query_count, p.max_research_loops))) = some (3, 3) ∧
    ((handleSubmit inp "high" model now msgs s).2.map
        (fun p => (p.initial_search_query_count, p.max_research_loops))) = some (5, 10) := by
  unfold handleSubmit
  refine ⟨?_, ?_, ?_⟩ <;> simp [h]

/-- Concrete run of `c9_effort_mapping`. -/
theorem c9_effort_mapping_witness :
    jsTrim "hello" ≠ "" ∧
    (((handleSubmit "hello" "low" "gemini" 3 [] sLatched).2.map
        (fun p => (p.initial_search_query_count, p.max_research_loops))) = some (1, 1) ∧
      ((handleSubmit "hello" "medium" "gemini" 3 [] sLatched).2.map
        (fun p => (p.initial_search_query_count, p.max_research_loops))) = some (3, 3) ∧
      ((handleSubmit "hello" "high" "gemini" 3 [] sLatched).2.map
        (fun p => (p.initial_search_query_count, p.max_research_loops))) = some (5, 10)) :=
  ⟨by decide, c9_effort_mapping "hello" "gemini" 3 [] sLatched (by decide)⟩

/-- C10: a non-blank submission with any effort string other than "low",
"medium" or "high" still dispatches a payload, with both search parameters
zero (the switch has no default case and the counters start at zero). -/
theorem c10_unknown_effort (inp effort model : String) (now : Nat)
    (msgs : List Message) (s : AppState) (h : jsTrim inp ≠ "")
    (hL : effort ≠ "low") (hM : effort ≠ "medium") (hH : effort ≠ "high") :
    ((handleSubmit inp effort model now msgs s).2.map
        (fun p => (p.initial_search_query_count, p.max_research_loops))) = some (0, 0) := by
  unfold handleSubmit
  simp [h, hL, hM, hH]

/-- Concrete run of `c10_unknown_effort` with the effort string "extreme". -/
theorem c10_unknown_effort_witness :
    jsTrim "hello" ≠ "" ∧ ("extreme" : String) ≠ "low" ∧
    ("extreme" : String) ≠ "medium" ∧ ("extreme" : String) ≠ "high" ∧
    ((handleSubmit "hello" "extreme" "gemini" 3 [] sLatched).2.map
        (fun p => (p.initial_search_query_count, p.max_research_loops))) = some (0, 0) :=
  ⟨by decide, by decide, by decide, by decide,
    c10_unknown_effort "hello" "extreme" "gemini" 3 [] sLatched
      (by decide) (by decide) (by decide) (by decide)⟩
